import Mathlib

/-!
# Verification of the `dawn` slash-command descriptor

Shallow embedding of `src/dawn/commands/slash/command.py`: the
`SlashCommand` data holder (constructor, property accessors) and the
structural comparator `_compare_with` against a remote command
representation, together with proofs of the specified properties.
-/

namespace Dawn

/-- Model of Python's `str.lower` on a single character, restricted to the
ASCII range (upper-case ASCII letters are shifted to lower case, every other
character is unchanged). -/
def pyLowerChar (c : Char) : Char :=
  if 65 ≤ c.toNat ∧ c.toNat ≤ 90 then Char.ofNat (c.toNat + 32) else c

/-- Model of Python's `str.lower`: `pyLowerChar` applied to every character. -/
def pyLower (s : String) : String :=
  String.mk (s.data.map pyLowerChar)

/-- Model of the external `Extension` type (`dawn.extensions.Extension`):
only its identity matters to this fragment, so it is an opaque record. -/
structure Extension where
  id : Nat
deriving DecidableEq, Repr

/-- Option descriptor (`dawn.commands.slash.base.Option` as referenced by
`_compare_with`): the fields the code reads are `name`, `description` and
`type`; hikari's option type is an integer enum, modelled as `Nat`. -/
structure SlashOption where
  name : String
  description : String
  type : Nat
deriving DecidableEq, Repr

/-- The remote command representation (`hikari.SlashCommand` as used by
`_compare_with`): `name`, `description` and a possibly-absent `options`
sequence (`command.options` can be `None` in hikari). -/
structure RemoteCommand where
  name : String
  description : String
  options : Option (List SlashOption)
deriving DecidableEq, Repr

/-- Python truthiness coalescing `xs or []` on an optional sequence: `None`
yields `[]`, and an empty list (falsy) also yields `[]`, which coincides with
returning the list itself. -/
def orEmpty (xs : Option (List SlashOption)) : List SlashOption :=
  match xs with
  | none => []
  | some l => if l.isEmpty then [] else l

/-- The `SlashCommand` descriptor: the `__slots__` fields `_extension`,
`_name`, `_description`, `_guild_ids`, `_options`. -/
structure SlashCommand where
  _extension : Option Extension
  _name : String
  _description : String
  _guild_ids : List Int
  _options : List SlashOption
deriving DecidableEq, Repr

namespace SlashCommand

/-- `SlashCommand.__init__`: stores `name.lower()`, the description as given,
`guild_ids or []`, and the options tuple; `_extension` starts as `None`.
`guild_ids` defaults to `None` and `options` to the empty tuple. -/
def init (name : String) (description : String)
    (guild_ids : Option (List Int) := none)
    (options : List SlashOption := []) : SlashCommand :=
  { _extension := none
    _name := pyLower name
    _description := description
    _guild_ids :=
      match guild_ids with
      | none => []
      | some l => if l.isEmpty then [] else l
    _options := options }

/-- Property `name`. -/
def name (self : SlashCommand) : String := self._name

/-- Property `description`. -/
def description (self : SlashCommand) : String := self._description

/-- Property `guild_ids`. -/
def guild_ids (self : SlashCommand) : List Int := self._guild_ids

/-- Property `options`. -/
def options (self : SlashCommand) : List SlashOption := self._options

/-- Property `extension`. -/
def extension (self : SlashCommand) : Option Extension := self._extension

/-- `SlashCommand._compare_with`: name and description must match, the
option counts must match (a `None` remote options field counts as empty),
and every positional pair of options must agree on the compared tuples.
The last tuple component reproduces the source exactly: `option.type` (the
local option's type) appears on both sides of the tuple comparison. -/
def compare_with (self : SlashCommand) (command : RemoteCommand) : Bool :=
  self.name == command.name
    && self.description == command.description
    && self.options.length == (orEmpty command.options).length
    && (self.options.zip (orEmpty command.options)).all
        (fun (p : SlashOption × SlashOption) =>
          (p.1.name, p.1.description, p.1.type)
            == (p.2.name, p.2.description, p.1.type))

/-- `_compare_with` with the instance state threaded explicitly: the method
body contains no attribute assignment, so the resulting state is the
receiver it was called on. Used to state the frame property. -/
def compare_withSt (self : SlashCommand) (command : RemoteCommand) :
    Bool × SlashCommand :=
  (self.compare_with command, self)

end SlashCommand

/-- The comparator the spec describes in claim C1, written from the spec's
words: names match, descriptions match, option counts match, and every
positional pair matches on the full (name, description, type) tuple —
including the remote option's `type`. -/
def specCompare (self : SlashCommand) (command : RemoteCommand) : Prop :=
  self.name = command.name
    ∧ self.description = command.description
    ∧ self.options.length = (orEmpty command.options).length
    ∧ ∀ p ∈ self.options.zip (orEmpty command.options),
        p.1.name = p.2.name ∧ p.1.description = p.2.description
          ∧ p.1.type = p.2.type

/-- Characterisation of `_compare_with`: it returns `true` exactly when the
names and descriptions match, the option counts match, and every positional
pair of options agrees on name and description (the type component of the
compared tuples is the local type on both sides, hence always equal). -/
theorem compare_with_iff (self : SlashCommand) (command : RemoteCommand) :
    self.compare_with command = true ↔
      self.name = command.name
        ∧ self.description = command.description
        ∧ self.options.length = (orEmpty command.options).length
        ∧ ∀ p ∈ self.options.zip (orEmpty command.options),
            p.1.name = p.2.name ∧ p.1.description = p.2.description := by
  unfold SlashCommand.compare_with
  simp only [Bool.and_eq_true, beq_iff_eq, List.all_eq_true, Prod.mk.injEq,
    decide_eq_true_eq]
  constructor
  · rintro ⟨⟨⟨h1, h2⟩, h3⟩, h4⟩
    exact ⟨h1, h2, h3, fun p hp => ⟨(h4 p hp).1, (h4 p hp).2.1⟩⟩
  · rintro ⟨h1, h2, h3, h4⟩
    exact ⟨⟨⟨h1, h2⟩, h3⟩, fun p hp => ⟨(h4 p hp).1, (h4 p hp).2, trivial⟩⟩

/-- C1 (counterexample): the comparator is not equivalent to the spec's
tuple test including `type`: for the local command `c` with one option of
type 3 and the remote command with the same name, description and option
name/description but type 4, `_compare_with` returns `true` while the
spec's (name, description, type) tuples differ, so the claimed `iff` fails
at this input. -/
theorem compare_with_ne_spec_tuple_test :
    ¬ ((SlashCommand.init "c" "d" none [⟨"a", "ad", 3⟩]).compare_with
          ⟨"c", "d", some [⟨"a", "ad", 4⟩]⟩ = true
        ↔ specCompare (SlashCommand.init "c" "d" none [⟨"a", "ad", 3⟩])
            ⟨"c", "d", some [⟨"a", "ad", 4⟩]⟩) := by
  intro h
  have hc : (SlashCommand.init "c" "d" none [⟨"a", "ad", 3⟩]).compare_with
      ⟨"c", "d", some [⟨"a", "ad", 4⟩]⟩ = true := by decide
  have hs := (h.mp hc).2.2.2 (⟨"a", "ad", 3⟩, ⟨"a", "ad", 4⟩) (by decide)
  exact absurd hs.2.2 (by decide)

/-- C1 (amended): `_compare_with` returns `true` if and only if (a) the
names match exactly, (b) the descriptions match exactly, (c) the option
counts match, and (d) every positional pair of local and remote options
matches on (name, description) — the type component of the compared tuples
is the local option's type on both sides and so never distinguishes. -/
theorem compare_with_true_iff (self : SlashCommand) (command : RemoteCommand) :
    self.compare_with command = true ↔
      self.name = command.name
        ∧ self.description = command.description
        ∧ self.options.length = (orEmpty command.options).length
        ∧ ∀ p ∈ self.options.zip (orEmpty command.options),
            p.1.name = p.2.name ∧ p.1.description = p.2.description :=
  compare_with_iff self command

/-- C2: whenever the names, descriptions, option counts, and pairwise
option names and descriptions all match, `_compare_with` returns `true`
even when some positional pair of options differs in its `type` field. -/
theorem compare_with_ignores_type (self : SlashCommand) (command : RemoteCommand)
    (h1 : self.name = command.name)
    (h2 : self.description = command.description)
    (h3 : self.options.length = (orEmpty command.options).length)
    (h4 : ∀ p ∈ self.options.zip (orEmpty command.options),
        p.1.name = p.2.name ∧ p.1.description = p.2.description)
    (_h5 : ∃ p ∈ self.options.zip (orEmpty command.options),
        p.1.type ≠ p.2.type) :
    self.compare_with command = true :=
  (compare_with_iff self command).mpr ⟨h1, h2, h3, h4⟩

/-- C2 witness: a concrete local/remote pair agreeing on everything but the
single option's type (3 locally, 4 remotely) still compares equal. -/
theorem compare_with_ignores_type_ex :
    (SlashCommand.init "c" "d" none [⟨"a", "ad", 3⟩]).compare_with
      ⟨"c", "d", some [⟨"a", "ad", 4⟩]⟩ = true :=
  compare_with_ignores_type (SlashCommand.init "c" "d" none [⟨"a", "ad", 3⟩])
    ⟨"c", "d", some [⟨"a", "ad", 4⟩]⟩
    (by decide) (by decide) (by decide) (by decide) (by decide)

/-- C3: the constructor stores the lower-cased input name and the `name`
accessor returns it; in particular constructing with name "Ping" yields
name "ping". -/
theorem name_stored_lowercased (n d : String) (g : Option (List Int))
    (o : List SlashOption) :
    (SlashCommand.init n d g o).name = pyLower n
      ∧ (SlashCommand.init "Ping" "d").name = "ping" :=
  ⟨rfl, by decide⟩

/-- C4: constructing without `guild_ids` (the default is `None`) or with an
explicit `None` yields a descriptor whose `guild_ids` accessor returns the
empty sequence, i.e. a global command. -/
theorem guild_ids_default_empty (n d : String) (o : List SlashOption) :
    (SlashCommand.init n d none o).guild_ids = []
      ∧ (SlashCommand.init n d).guild_ids = [] :=
  ⟨rfl, rfl⟩

/-- C5: constructing without `options` (the default is the empty tuple)
yields a descriptor whose `options` accessor returns the empty sequence. -/
theorem options_default_empty (n d : String) (g : Option (List Int)) :
    (SlashCommand.init n d g).options = [] :=
  rfl

/-- C6: `_compare_with` returns `false` when the option counts differ, and
returns `false` when some positional pair of options differs in name or in
description. -/
theorem compare_with_detects_mismatch (self : SlashCommand)
    (command : RemoteCommand) :
    (self.options.length ≠ (orEmpty command.options).length →
        self.compare_with command = false)
    ∧ ((∃ p ∈ self.options.zip (orEmpty command.options),
          p.1.name ≠ p.2.name ∨ p.1.description ≠ p.2.description) →
        self.compare_with command = false) := by
  constructor
  · intro h
    rw [Bool.eq_false_iff]
    intro hc
    exact h ((compare_with_iff self command).mp hc).2.2.1
  · rintro ⟨p, hp, hne⟩
    rw [Bool.eq_false_iff]
    intro hc
    have hpd := ((compare_with_iff self command).mp hc).2.2.2 p hp
    cases hne with
    | inl h => exact h hpd.1
    | inr h => exact h hpd.2

/-- C6 witness: a local command with one option compares unequal to a
remote command with zero options (count mismatch), and unequal to a remote
command whose single option has a different name (pairwise mismatch). -/
theorem compare_with_detects_mismatch_ex :
    (SlashCommand.init "c" "d" none [⟨"a", "ad", 1⟩]).compare_with
        ⟨"c", "d", some []⟩ = false
    ∧ (SlashCommand.init "c" "d" none [⟨"a", "ad", 1⟩]).compare_with
        ⟨"c", "d", some [⟨"b", "ad", 1⟩]⟩ = false :=
  ⟨(compare_with_detects_mismatch (SlashCommand.init "c" "d" none [⟨"a", "ad", 1⟩])
      ⟨"c", "d", some []⟩).1 (by decide),
   (compare_with_detects_mismatch (SlashCommand.init "c" "d" none [⟨"a", "ad", 1⟩])
      ⟨"c", "d", some [⟨"b", "ad", 1⟩]⟩).2 (by decide)⟩

/-- C7: `_compare_with` returns `true` when the names match, the
descriptions match, the option counts match, and every positional pair of
local and remote options matches on name and description. -/
theorem compare_with_true_of_match (self : SlashCommand)
    (command : RemoteCommand)
    (h1 : self.name = command.name)
    (h2 : self.description = command.description)
    (h3 : self.options.length = (orEmpty command.options).length)
    (h4 : ∀ p ∈ self.options.zip (orEmpty command.options),
        p.1.name = p.2.name ∧ p.1.description = p.2.description) :
    self.compare_with command = true :=
  (compare_with_iff self command).mpr ⟨h1, h2, h3, h4⟩

/-- C7 witness: a concrete matching local/remote pair compares equal. -/
theorem compare_with_true_of_match_ex :
    (SlashCommand.init "cmd" "d" none [⟨"a", "ad", 3⟩]).compare_with
      ⟨"cmd", "d", some [⟨"a", "ad", 3⟩]⟩ = true :=
  compare_with_true_of_match (SlashCommand.init "cmd" "d" none [⟨"a", "ad", 3⟩])
    ⟨"cmd", "d", some [⟨"a", "ad", 3⟩]⟩
    (by decide) (by decide) (by decide) (by decide)

/-- C8: immediately after construction, whatever the constructor arguments,
the `extension` accessor returns `None`; the back-reference is only set
later by the registration process. -/
theorem extension_initially_none (n d : String) (g : Option (List Int))
    (o : List SlashOption) :
    (SlashCommand.init n d g o).extension = none :=
  rfl

/-- C9: `_compare_with` is a pure predicate: threading the instance state
explicitly, the call returns a boolean equal to the pure comparator's value
and leaves every field of the descriptor (name, description, guild_ids,
options, extension) unchanged. -/
theorem compare_with_frame (self : SlashCommand) (command : RemoteCommand) :
    ((self.compare_withSt command).1 = true
        ∨ (self.compare_withSt command).1 = false)
    ∧ (self.compare_withSt command).1 = self.compare_with command
    ∧ (self.compare_withSt command).2.name = self.name
    ∧ (self.compare_withSt command).2.description = self.description
    ∧ (self.compare_withSt command).2.guild_ids = self.guild_ids
    ∧ (self.compare_withSt command).2.options = self.options
    ∧ (self.compare_withSt command).2.extension = self.extension := by
  refine ⟨?_, rfl, rfl, rfl, rfl, rfl, rfl⟩
  cases h : (self.compare_withSt command).1
  · exact Or.inr rfl
  · exact Or.inl rfl

/-- C10: a `None` remote options field is treated as the empty sequence:
with matching name and description, a local descriptor with zero options
compares equal to such a remote command, and a local descriptor with at
least one option compares unequal to it. -/
theorem compare_with_none_options (self : SlashCommand)
    (command : RemoteCommand) (hn : command.options = none) :
    (self.options = [] → self.name = command.name →
        self.description = command.description →
        self.compare_with command = true)
    ∧ (self.options ≠ [] → self.compare_with command = false) := by
  constructor
  · intro ho h1 h2
    refine (compare_with_iff self command).mpr ⟨h1, h2, ?_, ?_⟩
    · rw [ho, hn]; rfl
    · intro p hp
      rw [ho] at hp
      simp [List.zip] at hp
  · intro ho
    rw [Bool.eq_false_iff]
    intro hc
    have h3 := ((compare_with_iff self command).mp hc).2.2.1
    rw [hn] at h3
    exact ho (List.length_eq_zero.mp h3)

/-- C10 witness: against a remote command with `options = None`, a local
command with no options compares equal and a local command with one option
compares unequal. -/
theorem compare_with_none_options_ex :
    (SlashCommand.init "c" "d").compare_with ⟨"c", "d", none⟩ = true
    ∧ (SlashCommand.init "c" "d" none [⟨"a", "ad", 1⟩]).compare_with
        ⟨"c", "d", none⟩ = false :=
  ⟨(compare_with_none_options (SlashCommand.init "c" "d") ⟨"c", "d", none⟩
      rfl).1 rfl (by decide) (by decide),
   (compare_with_none_options (SlashCommand.init "c" "d" none [⟨"a", "ad", 1⟩])
      ⟨"c", "d", none⟩ rfl).2 (by decide)⟩

end Dawn
